import Mathlib

/-!
Shallow embedding of `src/programs/taskfi-escrow/src/lib.rs` (Anchor/Solana
escrow program) and verification of the frozen claims about it.

Modelling conventions:
* A Solana `Pubkey` is a `Nat` (only equality of keys matters to the program).
* `u64` values are `Nat`; the one place where overflow matters is the split
  guard `hirer_amount + freelancer_amount == escrow.amount` in
  `resolve_dispute`.  The repository ships no Cargo profile overriding the
  release default `overflow-checks = false`, so `u64` addition wraps modulo
  2^64; the embedding writes that wrap explicitly as `% U64_MOD`.
* Each `token::transfer` CPI is an invocation of the external Fund Transfer
  Adapter.  An operation receives an oracle `adapter : Nat → Bool` giving the
  outcome of its n-th transfer invocation (0-based, in program order); a
  `false` outcome makes the `?` in the source propagate an error, modelled as
  `Except.error .TransferFailed`.
* Executed transfer legs are reported as a `List TransferLeg` so that order,
  amounts and endpoints can be stated.
* An instruction that returns an error aborts the whole Solana transaction:
  no account mutation and no token movement is committed.  `commitRecord`
  makes that runtime rule explicit: on `.ok` the new record and legs commit,
  on `.error` the old record stays and no leg commits.
-/

namespace TaskfiEscrow

/-- u64 modulus. -/
def U64_MOD : Nat := 2 ^ 64

/-- Token accounts appearing as endpoints of `token::transfer` CPIs in the
program: the hirer's token account, the per-job escrow custody account, and
the freelancer's token account. -/
inductive TokenAcct where
  | hirerAcct
  | escrowAcct
  | freelancerAcct
deriving DecidableEq, Repr

/-- One executed `token::transfer(from, to, amount)` leg. -/
structure TransferLeg where
  src : TokenAcct
  dst : TokenAcct
  amt : Nat
deriving DecidableEq, Repr

/-- The `Escrow` account struct (`#[account] pub struct Escrow`, lib.rs
lines 355-369), field for field. -/
structure Escrow where
  hirer : Nat
  freelancer : Nat
  job_id : String
  amount : Nat
  deadline : Int
  is_released : Bool
  is_disputed : Bool
  dispute_reason : Option String
  created_at : Int
  released_at : Option Int
  disputed_at : Option Int
  bump : Nat
deriving DecidableEq, Repr

/-- The `EscrowError` enum (lib.rs lines 427-449), plus `TransferFailed` for
a failing `token::transfer` CPI (the error the Fund Transfer Adapter
propagates through `?`; the escrow program itself defines no variant for it,
the token program's error surfaces). -/
inductive EscrowError where
  | AlreadyReleased
  | InDispute
  | NotInDispute
  | AlreadyDisputed
  | UnauthorizedRelease
  | UnauthorizedDispute
  | InvalidSplitAmount
  | TransferFailed
deriving DecidableEq, Repr

/-- Result of one instruction: the new escrow record plus the transfer legs
it executed, or the error it aborted with. -/
abbrev EscrowResult := Except EscrowError (Escrow × List TransferLeg)

/-- Solana commits an instruction's account mutations and token movements
only when the instruction succeeds; an error aborts the transaction and
leaves everything as it was.  `commitRecord old res` is the record and the
token movement actually committed. -/
def commitRecord (old : Escrow) (res : EscrowResult) : Escrow × List TransferLeg :=
  match res with
  | .ok (e, legs) => (e, legs)
  | .error _ => (old, [])

/-- `initialize_escrow` (lib.rs lines 12-51).  Writes every record field from
the arguments and the clock, then transfers `amount` from the hirer's token
account into the escrow custody account.  The source performs no check on
`amount` and no comparison of `hirer` with `freelancer`. -/
def initialize_escrow (hirerKey freelancerKey : Nat) (job_id : String)
    (amount : Nat) (deadline : Int) (now : Int) (bump : Nat)
    (adapter : Nat → Bool) : EscrowResult :=
  let escrow : Escrow :=
    { hirer := hirerKey
      freelancer := freelancerKey
      job_id := job_id
      amount := amount
      deadline := deadline
      is_released := false
      is_disputed := false
      dispute_reason := none
      created_at := now
      released_at := none
      disputed_at := none
      bump := bump }
  if adapter 0 then
    .ok (escrow, [⟨.hirerAcct, .escrowAcct, amount⟩])
  else
    .error .TransferFailed

/-- `release_payment` (lib.rs lines 54-97).  Guard order as in the source:
`!is_released`, then `!is_disputed`, then the signer check against the
record's hirer and the caller-supplied `platform_admin` account; then one
transfer of the full `amount` from the custody account to the freelancer;
then `is_released := true`, `released_at := now`. -/
def release_payment (escrow : Escrow) (signer platform_admin : Nat)
    (now : Int) (adapter : Nat → Bool) : EscrowResult :=
  if escrow.is_released then .error .AlreadyReleased
  else if escrow.is_disputed then .error .InDispute
  else if signer = escrow.hirer ∨ signer = platform_admin then
    if adapter 0 then
      .ok ({ escrow with is_released := true, released_at := some now },
           [⟨.escrowAcct, .freelancerAcct, escrow.amount⟩])
    else .error .TransferFailed
  else .error .UnauthorizedRelease

/-- `initiate_dispute` (lib.rs lines 100-123).  Guard order as in the
source: `!is_released`, `!is_disputed`, signer ∈ {hirer, freelancer}; then
sets `is_disputed`, `dispute_reason`, `disputed_at`.  No transfer CPI. -/
def initiate_dispute (escrow : Escrow) (signer : Nat) (reason : String)
    (now : Int) : EscrowResult :=
  if escrow.is_released then .error .AlreadyReleased
  else if escrow.is_disputed then .error .AlreadyDisputed
  else if signer = escrow.hirer ∨ signer = escrow.freelancer then
    .ok ({ escrow with
            is_disputed := true
            dispute_reason := some reason
            disputed_at := some now }, [])
  else .error .UnauthorizedDispute

/-- `resolve_dispute` (lib.rs lines 126-186).  Guard order as in the source:
`is_disputed` (else `NotInDispute`), `!is_released` (else `AlreadyReleased`),
then the wrapping u64 sum check against `amount` (else `InvalidSplitAmount`).
Then the freelancer leg (skipped when `freelancer_amount == 0`), then the
hirer leg (skipped when `hirer_amount == 0`), then `is_released := true`,
`released_at := now`.  The `admin` signer is never compared with anything. -/
def resolve_dispute (escrow : Escrow) (admin : Nat)
    (hirer_amount freelancer_amount : Nat) (now : Int)
    (adapter : Nat → Bool) : EscrowResult :=
  if ¬ escrow.is_disputed then .error .NotInDispute
  else if escrow.is_released then .error .AlreadyReleased
  else if (hirer_amount + freelancer_amount) % U64_MOD ≠ escrow.amount then
    .error .InvalidSplitAmount
  else
    if freelancer_amount > 0 then
      if adapter 0 then
        if hirer_amount > 0 then
          if adapter 1 then
            .ok ({ escrow with is_released := true, released_at := some now },
                 [⟨.escrowAcct, .freelancerAcct, freelancer_amount⟩,
                  ⟨.escrowAcct, .hirerAcct, hirer_amount⟩])
          else .error .TransferFailed
        else
          .ok ({ escrow with is_released := true, released_at := some now },
               [⟨.escrowAcct, .freelancerAcct, freelancer_amount⟩])
      else .error .TransferFailed
    else
      if hirer_amount > 0 then
        if adapter 0 then
          .ok ({ escrow with is_released := true, released_at := some now },
               [⟨.escrowAcct, .hirerAcct, hirer_amount⟩])
        else .error .TransferFailed
      else
        .ok ({ escrow with is_released := true, released_at := some now }, [])

/-- `emergency_refund` (lib.rs lines 189-223).  The only guard is
`!is_released`; the `admin` signer is never compared with anything.  One
transfer of the full `amount` back to the hirer, then `is_released := true`,
`released_at := now`. -/
def emergency_refund (escrow : Escrow) (admin : Nat) (now : Int)
    (adapter : Nat → Bool) : EscrowResult :=
  if escrow.is_released then .error .AlreadyReleased
  else if adapter 0 then
    .ok ({ escrow with is_released := true, released_at := some now },
         [⟨.escrowAcct, .hirerAcct, escrow.amount⟩])
  else .error .TransferFailed

/-- A concrete Active record (neither released nor disputed), as produced by
`initialize_escrow` on the spec's happy-path example. -/
def sampleActive : Escrow :=
  { hirer := 1
    freelancer := 2
    job_id := "job-1"
    amount := 1000
    deadline := 100
    is_released := false
    is_disputed := false
    dispute_reason := none
    created_at := 5
    released_at := none
    disputed_at := none
    bump := 254 }

/-- A concrete Disputed record (disputed, not yet released). -/
def sampleDisputed : Escrow :=
  { sampleActive with
      job_id := "job-2"
      is_disputed := true
      dispute_reason := some ("quality issue")
      disputed_at := some 6 }

/-- The record produced by the freelancer disputing `sampleActive` with
reason "quality issue" at time 6. -/
def sampleActiveDisputed : Escrow :=
  { sampleActive with
      is_disputed := true
      dispute_reason := some ("quality issue")
      disputed_at := some 6 }

/-- A concrete Released record that was never disputed — the state reached by
a successful `release_payment` from `sampleActive`. -/
def sampleReleasedClean : Escrow :=
  { sampleActive with is_released := true, released_at := some 7 }

/-- C1: a caller that is neither the recorded hirer nor the supplied platform
admin never succeeds in `release_payment` and commits nothing, and on an
Active record (not released, not disputed) the error is precisely
`UnauthorizedRelease`. -/
theorem release_payment_unauthorized (escrow : Escrow)
    (signer platform_admin : Nat) (now : Int) (adapter : Nat → Bool)
    (hh : signer ≠ escrow.hirer) (ha : signer ≠ platform_admin) :
    (∀ e legs, release_payment escrow signer platform_admin now adapter ≠ .ok (e, legs)) ∧
    commitRecord escrow (release_payment escrow signer platform_admin now adapter) =
      (escrow, []) ∧
    (escrow.is_released = false → escrow.is_disputed = false →
      release_payment escrow signer platform_admin now adapter =
        .error .UnauthorizedRelease) := by
  cases hrel : escrow.is_released <;> cases hdis : escrow.is_disputed <;>
    simp [release_payment, commitRecord, hrel, hdis, hh, ha]

/-- Witness for C1 at caller key 3 against `sampleActive` (hirer 1, admin 9). -/
theorem release_payment_unauthorized_witness :
    release_payment sampleActive 3 9 5 (fun _ => true) = .error .UnauthorizedRelease :=
  (release_payment_unauthorized sampleActive 3 9 5 (fun _ => true)
    (by decide) (by decide)).2.2 rfl rfl

/-- C2 (code bug): `resolve_dispute`'s result is independent of the `admin`
signer — the function never compares it with anything — and a concrete caller
key 999, distinct from every party and from any designated admin, resolves
`sampleDisputed` (amount 1000) with split (400, 600) successfully, moving
funds and releasing the record.  This contradicts the source's own doc
comment "Resolve dispute (called by platform admin only)". -/
theorem resolve_dispute_no_admin_check :
    (∀ (escrow : Escrow) (a₁ a₂ hirer_amount freelancer_amount : Nat)
        (now : Int) (adapter : Nat → Bool),
      resolve_dispute escrow a₁ hirer_amount freelancer_amount now adapter =
        resolve_dispute escrow a₂ hirer_amount freelancer_amount now adapter) ∧
    resolve_dispute sampleDisputed 999 400 600 7 (fun _ => true) =
      .ok ({ sampleDisputed with is_released := true, released_at := some 7 },
           [⟨.escrowAcct, .freelancerAcct, 600⟩, ⟨.escrowAcct, .hirerAcct, 400⟩]) :=
  ⟨fun _ _ _ _ _ _ _ => rfl, rfl⟩

/-- C3 counterexample: on a record that is Released but was never Disputed
(reachable via `release_payment` from Active), `resolve_dispute` fails with
`NotInDispute`, not with `AlreadyReleased` — the `is_disputed` guard runs
before the `is_released` guard in the source. -/
theorem resolve_dispute_after_release_wrong_error :
    resolve_dispute sampleReleasedClean 9 400 600 8 (fun _ => true) =
      .error .NotInDispute ∧
    EscrowError.NotInDispute ≠ EscrowError.AlreadyReleased :=
  ⟨rfl, by decide⟩

/-- C3 amended: once `is_released` is set, every operation fails and commits
no mutation and no fund movement; `release_payment`, `initiate_dispute` and
`emergency_refund` fail with `AlreadyReleased`, while `resolve_dispute` fails
with `AlreadyReleased` when the record is also disputed and with
`NotInDispute` when it is not. -/
theorem released_is_terminal (escrow : Escrow)
    (signer platform_admin admin hirer_amount freelancer_amount : Nat)
    (reason : String) (now : Int) (adapter : Nat → Bool)
    (h : escrow.is_released = true) :
    release_payment escrow signer platform_admin now adapter =
      .error .AlreadyReleased ∧
    initiate_dispute escrow signer reason now = .error .AlreadyReleased ∧
    emergency_refund escrow admin now adapter = .error .AlreadyReleased ∧
    resolve_dispute escrow admin hirer_amount freelancer_amount now adapter =
      .error (if escrow.is_disputed then .AlreadyReleased else .NotInDispute) ∧
    commitRecord escrow
        (release_payment escrow signer platform_admin now adapter) = (escrow, []) ∧
    commitRecord escrow (initiate_dispute escrow signer reason now) = (escrow, []) ∧
    commitRecord escrow (emergency_refund escrow admin now adapter) = (escrow, []) ∧
    commitRecord escrow
        (resolve_dispute escrow admin hirer_amount freelancer_amount now adapter) =
      (escrow, []) := by
  cases hdis : escrow.is_disputed <;>
    simp [release_payment, initiate_dispute, emergency_refund, resolve_dispute,
      commitRecord, h, hdis]

/-- Witness for C3 (amended) at the released-and-disputed record obtained
from `sampleDisputed`. -/
theorem released_is_terminal_witness :
    release_payment { sampleDisputed with is_released := true } 1 9 8 (fun _ => true) =
      .error .AlreadyReleased ∧
    resolve_dispute { sampleDisputed with is_released := true } 9 400 600 8
        (fun _ => true) =
      .error (if ({ sampleDisputed with is_released := true } : Escrow).is_disputed
              then .AlreadyReleased else .NotInDispute) := by
  have h := released_is_terminal { sampleDisputed with is_released := true }
    1 9 9 400 600 "r" 8 (fun _ => true) rfl
  exact ⟨h.1, h.2.2.2.1⟩

/-- C4: a successful operation implies every transfer leg it attempted was
reported successful by the adapter — in particular `resolve_dispute` reaches
the Released state only when each of its non-zero legs succeeded — and any
operation that returns an error commits neither record mutation nor fund
movement. -/
theorem transfer_failure_atomicity (escrow : Escrow)
    (hk fk signer platform_admin admin hirer_amount freelancer_amount amt b : Nat)
    (jid : String) (dl now : Int) (adapter : Nat → Bool) :
    ((initialize_escrow hk fk jid amt dl now b adapter).isOk = true →
      adapter 0 = true) ∧
    ((release_payment escrow signer platform_admin now adapter).isOk = true →
      adapter 0 = true) ∧
    ((emergency_refund escrow admin now adapter).isOk = true →
      adapter 0 = true) ∧
    ((resolve_dispute escrow admin hirer_amount freelancer_amount now adapter).isOk
        = true →
      (0 < freelancer_amount → adapter 0 = true) ∧
      (0 < hirer_amount →
        adapter (if 0 < freelancer_amount then 1 else 0) = true)) ∧
    (∀ e legs,
      resolve_dispute escrow admin hirer_amount freelancer_amount now adapter =
        .ok (e, legs) → e.is_released = true) ∧
    (∀ res : EscrowResult, res.isOk = false →
      commitRecord escrow res = (escrow, [])) := by
  refine ⟨?_, ?_, ?_, ?_, ?_, ?_⟩
  · intro h
    unfold initialize_escrow at h
    split_ifs at h <;> simp_all [Except.isOk, Except.toBool]
  · intro h
    unfold release_payment at h
    split_ifs at h <;> simp_all [Except.isOk, Except.toBool]
  · intro h
    unfold emergency_refund at h
    split_ifs at h <;> simp_all [Except.isOk, Except.toBool]
  · intro h
    unfold resolve_dispute at h
    split_ifs at h <;> simp_all [Except.isOk, Except.toBool]
  · intro e legs h
    unfold resolve_dispute at h
    split_ifs at h <;>
      simp only [Except.ok.injEq, Prod.mk.injEq] at h <;>
      try exact Except.noConfusion h
    all_goals (rcases h with ⟨rfl, rfl⟩; rfl)
  · intro res h
    cases res with
    | ok v => simp [Except.isOk, Except.toBool] at h
    | error e => rfl

/-- Witness for C4: on `sampleDisputed` with split (400, 600) and an adapter
whose invocations 0 and 1 succeed, the operation is successful and the
theorem yields the success of both legs. -/
theorem transfer_failure_atomicity_witness :
    (0 < 600 → (fun _ : Nat => true) 0 = true) ∧
    (0 < 400 → (fun _ : Nat => true) (if 0 < 600 then 1 else 0) = true) :=
  (transfer_failure_atomicity sampleDisputed 1 2 1 9 9 400 600 1000 254
    "job-2" 100 7 (fun _ => true)).2.2.2.1 rfl

/-- C5 counterexample: the split guard compares the u64-wrapped sum with
`amount`, so on the disputed 1000-amount record the split
(2^64 - 1, 1001) — whose mathematical sum is 2^64 + 1000 ≠ 1000 — passes the
guard and the operation succeeds instead of failing with
`InvalidSplitAmount`. -/
theorem split_guard_wraps :
    resolve_dispute sampleDisputed 9 (U64_MOD - 1) 1001 7 (fun _ => true) =
      .ok ({ sampleDisputed with is_released := true, released_at := some 7 },
           [⟨.escrowAcct, .freelancerAcct, 1001⟩,
            ⟨.escrowAcct, .hirerAcct, U64_MOD - 1⟩]) ∧
    (U64_MOD - 1) + 1001 ≠ sampleDisputed.amount :=
  ⟨rfl, by decide⟩

/-- C5 amended: on a Disputed, not-yet-released record the guard rejects with
`InvalidSplitAmount` exactly when the sum of the two split arguments
**modulo 2^64** differs from `amount`; in particular the check agrees with
exact integer arithmetic whenever `hirer_amount + freelancer_amount < 2^64`,
and whenever the wrapped sum matches, execution proceeds past the guard
(never returning `InvalidSplitAmount`). -/
theorem split_guard_mod_exact (escrow : Escrow)
    (admin hirer_amount freelancer_amount : Nat) (now : Int)
    (adapter : Nat → Bool)
    (hd : escrow.is_disputed = true) (hr : escrow.is_released = false) :
    ((hirer_amount + freelancer_amount) % U64_MOD ≠ escrow.amount →
      resolve_dispute escrow admin hirer_amount freelancer_amount now adapter =
        .error .InvalidSplitAmount) ∧
    (hirer_amount + freelancer_amount < U64_MOD →
      hirer_amount + freelancer_amount ≠ escrow.amount →
      resolve_dispute escrow admin hirer_amount freelancer_amount now adapter =
        .error .InvalidSplitAmount) ∧
    ((hirer_amount + freelancer_amount) % U64_MOD = escrow.amount →
      resolve_dispute escrow admin hirer_amount freelancer_amount now adapter ≠
        .error .InvalidSplitAmount) := by
  refine ⟨?_, ?_, ?_⟩
  · intro hne
    simp [resolve_dispute, hd, hr, hne]
  · intro hlt hne
    have : (hirer_amount + freelancer_amount) % U64_MOD =
        hirer_amount + freelancer_amount := Nat.mod_eq_of_lt hlt
    simp [resolve_dispute, hd, hr, this, hne]
  · intro heq
    unfold resolve_dispute
    split_ifs <;> simp_all

/-- Witness for C5 (amended): `resolve_dispute(400, 700)` on the disputed
1000-amount record fails with `InvalidSplitAmount` (the spec's invalid-split
scenario). -/
theorem split_guard_mod_exact_witness :
    resolve_dispute sampleDisputed 9 400 700 7 (fun _ => true) =
      .error .InvalidSplitAmount :=
  (split_guard_mod_exact sampleDisputed 9 400 700 7 (fun _ => true)
    rfl rfl).2.1 (by decide) (by decide)

/-- C6: whenever `resolve_dispute` succeeds, the committed record is the
input record with `is_released := true` and `released_at := some now` and
nothing else changed, and the executed legs are the freelancer leg (escrow
custody → freelancer, `freelancer_amount`, skipped when zero) followed by
the hirer leg (escrow custody → hirer, `hirer_amount`, skipped when zero),
in that order. -/
theorem resolve_dispute_success_effects (escrow : Escrow)
    (admin hirer_amount freelancer_amount : Nat) (now : Int)
    (adapter : Nat → Bool) (e : Escrow) (legs : List TransferLeg)
    (h : resolve_dispute escrow admin hirer_amount freelancer_amount now adapter =
      .ok (e, legs)) :
    e = { escrow with is_released := true, released_at := some now } ∧
    legs = (if 0 < freelancer_amount then
              [⟨.escrowAcct, .freelancerAcct, freelancer_amount⟩] else []) ++
           (if 0 < hirer_amount then
              [⟨.escrowAcct, .hirerAcct, hirer_amount⟩] else []) := by
  unfold resolve_dispute at h
  split_ifs at h <;>
    simp only [Except.ok.injEq, Prod.mk.injEq] at h <;>
    try exact Except.noConfusion h
  all_goals (rcases h with ⟨rfl, rfl⟩; simp_all)

/-- Witness for C6 at the spec's dispute-split scenario: split (400, 600) on
the disputed 1000-amount record. -/
theorem resolve_dispute_success_effects_witness :
    ({ sampleDisputed with is_released := true, released_at := some 7 } : Escrow) =
      { sampleDisputed with is_released := true, released_at := some 7 } ∧
    ([⟨.escrowAcct, .freelancerAcct, 600⟩, ⟨.escrowAcct, .hirerAcct, 400⟩] :
        List TransferLeg) =
      (if 0 < 600 then [⟨.escrowAcct, .freelancerAcct, 600⟩] else []) ++
      (if 0 < 400 then [⟨.escrowAcct, .hirerAcct, 400⟩] else []) :=
  resolve_dispute_success_effects sampleDisputed 9 400 600 7 (fun _ => true)
    { sampleDisputed with is_released := true, released_at := some 7 }
    [⟨.escrowAcct, .freelancerAcct, 600⟩, ⟨.escrowAcct, .hirerAcct, 400⟩] rfl

/-- C7 counterexample: `initialize_escrow` with `amount = 0` succeeds and
creates a record with `amount = 0` — the source has no `amount > 0` guard,
so `amount > 0` is not an invariant of reachable records. -/
theorem initialize_escrow_zero_amount :
    initialize_escrow 1 2 "job-0" 0 100 5 254 (fun _ => true) =
      .ok ({ hirer := 1, freelancer := 2, job_id := "job-0", amount := 0,
             deadline := 100, is_released := false, is_disputed := false,
             dispute_reason := none, created_at := 5, released_at := none,
             disputed_at := none, bump := 254 },
           [⟨.hirerAcct, .escrowAcct, 0⟩]) := rfl

/-- C7 amended: `initialize_escrow` performs no validation of `amount`
whatsoever; whenever the funding transfer succeeds it creates the record
with the caller-supplied amount — zero included — so the created record's
`amount` equals the argument unconditionally. -/
theorem initialize_escrow_no_amount_guard (hk fk amt b : Nat) (jid : String)
    (dl now : Int) (adapter : Nat → Bool) (h : adapter 0 = true) :
    initialize_escrow hk fk jid amt dl now b adapter =
      .ok ({ hirer := hk, freelancer := fk, job_id := jid, amount := amt,
             deadline := dl, is_released := false, is_disputed := false,
             dispute_reason := none, created_at := now, released_at := none,
             disputed_at := none, bump := b },
           [⟨.hirerAcct, .escrowAcct, amt⟩]) := by
  simp [initialize_escrow, h]

/-- Witness for C7 (amended), at `amount = 0`. -/
theorem initialize_escrow_no_amount_guard_witness :
    initialize_escrow 3 4 "job-7" 0 100 5 254 (fun _ => true) =
      .ok ({ hirer := 3, freelancer := 4, job_id := "job-7", amount := 0,
             deadline := 100, is_released := false, is_disputed := false,
             dispute_reason := none, created_at := 5, released_at := none,
             disputed_at := none, bump := 254 },
           [⟨.hirerAcct, .escrowAcct, 0⟩]) :=
  initialize_escrow_no_amount_guard 3 4 0 254 "job-7" 100 5 (fun _ => true) rfl

/-- C8 counterexample: `initialize_escrow` called with the same key (5) for
hirer and freelancer succeeds and creates a record whose `hirer` and
`freelancer` fields are equal — the source never compares the two keys. -/
theorem initialize_escrow_equal_parties :
    initialize_escrow 5 5 "job-8" 10 100 5 254 (fun _ => true) =
      .ok ({ hirer := 5, freelancer := 5, job_id := "job-8", amount := 10,
             deadline := 100, is_released := false, is_disputed := false,
             dispute_reason := none, created_at := 5, released_at := none,
             disputed_at := none, bump := 254 },
           [⟨.hirerAcct, .escrowAcct, 10⟩]) := rfl

/-- C8 amended: `initialize_escrow` copies the two party keys into the record
without comparing them (creation with `hirer = freelancer` succeeds whenever
the funding transfer does, and the created record has equal parties), and no
subsequent operation changes the `hirer` or `freelancer` field of a record
it successfully updates. -/
theorem hirer_freelancer_unchecked_but_immutable (escrow : Escrow)
    (k signer platform_admin admin hirer_amount freelancer_amount amt b : Nat)
    (jid reason : String) (dl now : Int) (adapter : Nat → Bool)
    (h : adapter 0 = true) :
    (initialize_escrow k k jid amt dl now b adapter).isOk = true ∧
    (∀ e legs, initialize_escrow k k jid amt dl now b adapter = .ok (e, legs) →
      e.hirer = e.freelancer) ∧
    (∀ e legs, release_payment escrow signer platform_admin now adapter =
        .ok (e, legs) →
      e.hirer = escrow.hirer ∧ e.freelancer = escrow.freelancer) ∧
    (∀ e legs, initiate_dispute escrow signer reason now = .ok (e, legs) →
      e.hirer = escrow.hirer ∧ e.freelancer = escrow.freelancer) ∧
    (∀ e legs, resolve_dispute escrow admin hirer_amount freelancer_amount now
        adapter = .ok (e, legs) →
      e.hirer = escrow.hirer ∧ e.freelancer = escrow.freelancer) ∧
    (∀ e legs, emergency_refund escrow admin now adapter = .ok (e, legs) →
      e.hirer = escrow.hirer ∧ e.freelancer = escrow.freelancer) := by
  refine ⟨?_, ?_, ?_, ?_, ?_, ?_⟩
  · simp [initialize_escrow, h, Except.isOk, Except.toBool]
  · intro e legs hok
    unfold initialize_escrow at hok
    split_ifs at hok <;>
      simp only [Except.ok.injEq, Prod.mk.injEq] at hok <;>
      try exact Except.noConfusion hok
    rcases hok with ⟨rfl, rfl⟩
    rfl
  · intro e legs hok
    unfold release_payment at hok
    split_ifs at hok <;>
      simp only [Except.ok.injEq, Prod.mk.injEq] at hok <;>
      try exact Except.noConfusion hok
    all_goals (rcases hok with ⟨rfl, rfl⟩; exact ⟨rfl, rfl⟩)
  · intro e legs hok
    unfold initiate_dispute at hok
    split_ifs at hok <;>
      simp only [Except.ok.injEq, Prod.mk.injEq] at hok <;>
      try exact Except.noConfusion hok
    all_goals (rcases hok with ⟨rfl, rfl⟩; exact ⟨rfl, rfl⟩)
  · intro e legs hok
    unfold resolve_dispute at hok
    split_ifs at hok <;>
      simp only [Except.ok.injEq, Prod.mk.injEq] at hok <;>
      try exact Except.noConfusion hok
    all_goals (rcases hok with ⟨rfl, rfl⟩; exact ⟨rfl, rfl⟩)
  · intro e legs hok
    unfold emergency_refund at hok
    split_ifs at hok <;>
      simp only [Except.ok.injEq, Prod.mk.injEq] at hok <;>
      try exact Except.noConfusion hok
    all_goals (rcases hok with ⟨rfl, rfl⟩; exact ⟨rfl, rfl⟩)

/-- Witness for C8 (amended): a record with equal parties (key 5) is
creatable. -/
theorem hirer_freelancer_unchecked_witness :
    (initialize_escrow 5 5 "job-8w" 10 100 5 254 (fun _ => true)).isOk = true :=
  (hirer_freelancer_unchecked_but_immutable sampleActive 5 1 9 9 400 600 10 254
    "job-8w" "r" 100 5 (fun _ => true) rfl).1

/-- C9: a successful `initiate_dispute` executes no transfer leg and changes
only `is_disputed` (to `true`), `dispute_reason` (to the given reason) and
`disputed_at` (to the current time); every other field — `hirer`,
`freelancer`, `job_id`, `amount`, `deadline`, `is_released`, `created_at`,
`released_at`, `bump` — is unchanged. -/
theorem initiate_dispute_frame (escrow : Escrow) (signer : Nat)
    (reason : String) (now : Int) (e : Escrow) (legs : List TransferLeg)
    (h : initiate_dispute escrow signer reason now = .ok (e, legs)) :
    legs = [] ∧
    e.is_disputed = true ∧ e.dispute_reason = some reason ∧
    e.disputed_at = some now ∧
    e.hirer = escrow.hirer ∧ e.freelancer = escrow.freelancer ∧
    e.job_id = escrow.job_id ∧ e.amount = escrow.amount ∧
    e.deadline = escrow.deadline ∧ e.is_released = escrow.is_released ∧
    e.created_at = escrow.created_at ∧ e.released_at = escrow.released_at ∧
    e.bump = escrow.bump := by
  unfold initiate_dispute at h
  split_ifs at h <;>
    simp only [Except.ok.injEq, Prod.mk.injEq] at h <;>
    try exact Except.noConfusion h
  rcases h with ⟨rfl, rfl⟩
  exact ⟨rfl, rfl, rfl, rfl, rfl, rfl, rfl, rfl, rfl, rfl, rfl, rfl, rfl⟩

/-- Witness for C9: the freelancer (key 2) disputes `sampleActive` with
reason "quality issue" at time 6. -/
theorem initiate_dispute_frame_witness :
    ([] : List TransferLeg) = [] ∧
    sampleActiveDisputed.is_disputed = true ∧
    sampleActiveDisputed.dispute_reason = some ("quality issue") ∧
    sampleActiveDisputed.disputed_at = some 6 ∧
    sampleActiveDisputed.hirer = sampleActive.hirer ∧
    sampleActiveDisputed.freelancer = sampleActive.freelancer ∧
    sampleActiveDisputed.job_id = sampleActive.job_id ∧
    sampleActiveDisputed.amount = sampleActive.amount ∧
    sampleActiveDisputed.deadline = sampleActive.deadline ∧
    sampleActiveDisputed.is_released = sampleActive.is_released ∧
    sampleActiveDisputed.created_at = sampleActive.created_at ∧
    sampleActiveDisputed.released_at = sampleActive.released_at ∧
    sampleActiveDisputed.bump = sampleActive.bump :=
  initiate_dispute_frame sampleActive 2 "quality issue" 6
    sampleActiveDisputed [] rfl

/-- C10: `emergency_refund` performs no caller-identity check: its result is
the same for every `admin` argument; on any not-yet-released record it
succeeds whenever the refund transfer does, moving the full `amount` from
the custody account back to the hirer and setting `is_released := true`,
`released_at := now`; and its only failure apart from the transfer itself is
`AlreadyReleased` on an already-released record. -/
theorem emergency_refund_no_auth (escrow : Escrow) (a₁ a₂ : Nat) (now : Int)
    (adapter : Nat → Bool) :
    emergency_refund escrow a₁ now adapter = emergency_refund escrow a₂ now adapter ∧
    (escrow.is_released = false → adapter 0 = true →
      emergency_refund escrow a₁ now adapter =
        .ok ({ escrow with is_released := true, released_at := some now },
             [⟨.escrowAcct, .hirerAcct, escrow.amount⟩])) ∧
    (escrow.is_released = true →
      emergency_refund escrow a₁ now adapter = .error .AlreadyReleased) := by
  refine ⟨rfl, ?_, ?_⟩
  · intro hr ht
    simp [emergency_refund, hr, ht]
  · intro hr
    simp [emergency_refund, hr]

/-- Witness for C10: caller key 777 (neither party, no admin designation)
refunds `sampleDisputed` in full. -/
theorem emergency_refund_no_auth_witness :
    emergency_refund sampleDisputed 777 8 (fun _ => true) =
      .ok ({ sampleDisputed with is_released := true, released_at := some 8 },
           [⟨.escrowAcct, .hirerAcct, sampleDisputed.amount⟩]) :=
  (emergency_refund_no_auth sampleDisputed 777 3 8 (fun _ => true)).2.1 rfl rfl

end TaskfiEscrow
